import Mathlib

/-!
Shallow embedding of the Africa-Exam-Prep backend service layer.

The definitions below translate the JavaScript source:
* `QuizService` (quiz CRUD, eligibility, analytics, score distribution),
* `SubjectService` (create / list / soft-delete with uniqueness checks),
* `PhysicsLessonController` (ownership / role authorization guards).

Mongoose persistence is modelled as explicit in-memory stores (lists of
records); every service operation is a pure function from a store and its
arguments to an updated store and a response or a typed error.  JavaScript
numbers carrying scores, points and times are modelled as `ℚ`; identifiers
and counters as `ℕ`; timestamps as `ℤ` (milliseconds).  `Math.round` is
`jsRound` (floor of `x + 1/2`), `Math.ceil(a/b)` over naturals is
`jsCeilDiv`.
-/

/-- Typed service error carrying an HTTP status, as `utils/ApiError`. -/
structure ApiError where
  statusCode : Nat
  message : String
deriving Repr, DecidableEq

/-- Uniform success envelope, as `utils/ApiResponse`. -/
structure ApiResponse (α : Type) where
  statusCode : Nat
  data : α
  message : String
deriving Repr, DecidableEq

/-- Case mapping of a string, character by character (`String.toUpperCase`). -/
def upperStr (s : String) : String := ⟨s.data.map Char.toUpper⟩

/-- Case mapping of a string, character by character (`String.toLowerCase`). -/
def lowerStr (s : String) : String := ⟨s.data.map Char.toLower⟩

/-- Case-insensitive substring test, modelling the `$regex ... $options: "i"`
search clauses. -/
def containsCI (hay pat : String) : Bool :=
  2 ≤ ((lowerStr hay).splitOn (lowerStr pat)).length

/-- `Math.ceil(total / limit)` for natural `total` and positive `limit`. -/
def jsCeilDiv (total limit : Nat) : Nat := (total + limit - 1) / limit

/-- `Math.round` on a rational: floor of `x + 1/2` (ties go up, as in JS). -/
def jsRound (q : ℚ) : Int := ⌊q + 1/2⌋

deriving instance DecidableEq for Except

/-- Insert an element into a list in front of the first element it is
`le`-below; auxiliary for `sortWith`. -/
def insertSorted (le : α → α → Bool) (x : α) : List α → List α
  | [] => [x]
  | y :: ys => if le x y then x :: y :: ys else y :: insertSorted le x ys

/-- Insertion sort; models the persistence layer's `.sort(...)` stage. -/
def sortWith (le : α → α → Bool) (l : List α) : List α :=
  l.foldr (insertSorted le) []

/-! ## Regular-expression model for the name uniqueness pre-check

The name pre-check of `createSubject` interpolates the raw subject name
into `new RegExp("^" + name + "$", "i")` without escaping.  The model
below embeds the relevant JS regular-expression behaviour: literal
characters, escaped characters (`\c` read as the literal `c`), `.`,
grouping, alternation, the quantifiers `*`, `+`, `?` with an optional
lazy `?` marker, simple character classes with ranges and negation, and
the SyntaxError cases (dangling quantifier, unmatched parenthesis,
unterminated class, trailing backslash, embedded anchors).  A parsed
name is matched against the whole stored name (the `^...$` anchors),
case-insensitively by ASCII folding.  Outside this subset (brace
quantifiers, class escapes, the line-terminator exclusion of `.`,
top-level alternation interacting with the anchors, Unicode case
folding) the embedding is approximate, and no theorem below relies on a
name in that territory. -/

/-- One member of a character class: a single character or a range. -/
inductive ClsItem where
  | single (c : Char)
  | range (lo hi : Char)
deriving Repr, DecidableEq

/-- Syntax tree of the modelled regular-expression subset. -/
inductive Rx where
  | fail
  | eps
  | char (c : Char)
  | any
  | cls (neg : Bool) (items : List ClsItem)
  | seq (a b : Rx)
  | alt (a b : Rx)
  | star (a : Rx)
deriving Repr, DecidableEq

/-- Characters that are regular-expression syntax when a name is
interpolated unescaped into the pattern. -/
def regexPlainChar (c : Char) : Bool :=
  !(decide (c = '\\' ∨ c = '^' ∨ c = '$' ∨ c = '.' ∨ c = '|' ∨ c = '?' ∨ c = '*'
      ∨ c = '+' ∨ c = '(' ∨ c = ')' ∨ c = '[' ∨ c = ']' ∨ c = '{' ∨ c = '}'))

/-- Plain names: every character is literal in a regular expression. -/
def regexPlainName (s : String) : Bool := s.data.all regexPlainChar

/-- Consumption of the optional lazy marker after a quantifier. -/
def skipLazy : List Char → List Char
  | c :: rest => if c = '?' then rest else c :: rest
  | [] => []

/-- Items of a character class body, up to the closing bracket; `none` on
an unterminated class or trailing backslash (SyntaxError). -/
def parseClsItems : List Char → Option (List ClsItem × List Char)
  | [] => none
  | '\\' :: c :: rest =>
    match parseClsItems rest with
    | some (items, rest2) => some (.single c :: items, rest2)
    | none => none
  | '\\' :: [] => none
  | c1 :: '-' :: c2 :: rest =>
    if c1 = ']' then some ([], '-' :: c2 :: rest)
    else if c2 = ']' then some ([.single c1, .single '-'], rest)
    else
      match parseClsItems rest with
      | some (items, rest2) => some (.range c1 c2 :: items, rest2)
      | none => none
  | c :: rest =>
    if c = ']' then some ([], rest)
    else
      match parseClsItems rest with
      | some (items, rest2) => some (.single c :: items, rest2)
      | none => none

/-- Body of a character class after the opening bracket. -/
def parseCls (cs : List Char) : Option (Rx × List Char) :=
  match cs with
  | '^' :: rest =>
    match parseClsItems rest with
    | some (items, rest2) => some (.cls true items, rest2)
    | none => none
  | _ =>
    match parseClsItems cs with
    | some (items, rest2) => some (.cls false items, rest2)
    | none => none

/-- Requirement of a closing parenthesis after a parsed group body. -/
def closeGroup : Option (Rx × List Char) → Option (Rx × List Char)
  | some (r, c :: rest) => if c = ')' then some (r, rest) else none
  | _ => none

/-- Escaped character: the next character read literally. -/
def escChar : List Char → Option (Rx × List Char)
  | c :: rest => some (.char c, rest)
  | [] => none

mutual

/-- An alternation: sequences separated by the bar. -/
def parseAlt : Nat → List Char → Option (Rx × List Char)
  | 0, _ => none
  | fuel + 1, cs =>
    match parseSeq fuel cs with
    | some (r, c :: rest2) =>
      if c = '|' then (parseAlt fuel rest2).map (fun p => (.alt r p.1, p.2))
      else some (r, c :: rest2)
    | some (r, []) => some (r, [])
    | none => none

/-- A possibly empty sequence of quantified atoms, stopping at a closing
parenthesis, a bar, or the end. -/
def parseSeq : Nat → List Char → Option (Rx × List Char)
  | 0, _ => none
  | fuel + 1, cs =>
    match cs with
    | [] => some (.eps, [])
    | c :: rest =>
      if c = ')' ∨ c = '|' then some (.eps, c :: rest)
      else
        match parseAtomQ fuel (c :: rest) with
        | some (a, rest2) => (parseSeq fuel rest2).map (fun p => (.seq a p.1, p.2))
        | none => none

/-- One atom followed by at most one quantifier and its lazy marker. -/
def parseAtomQ : Nat → List Char → Option (Rx × List Char)
  | 0, _ => none
  | fuel + 1, cs =>
    match parseAtom fuel cs with
    | some (a, c :: rest2) =>
      if c = '*' then some (.star a, skipLazy rest2)
      else if c = '+' then some (.seq a (.star a), skipLazy rest2)
      else if c = '?' then some (.alt a .eps, skipLazy rest2)
      else some (a, c :: rest2)
    | some (a, []) => some (a, [])
    | none => none

/-- One atom: group, escape, wildcard, class, or literal character; a
quantifier with nothing to repeat, an unmatched parenthesis or an
embedded anchor is a SyntaxError (`none`). -/
def parseAtom : Nat → List Char → Option (Rx × List Char)
  | 0, _ => none
  | fuel + 1, cs =>
    match cs with
    | [] => none
    | c :: rest =>
      if c = '(' then closeGroup (parseAlt fuel rest)
      else if c = '\\' then escChar rest
      else if c = '.' then some (.any, rest)
      else if c = '[' then parseCls rest
      else if c = '*' ∨ c = '+' ∨ c = '?' ∨ c = '|' ∨ c = ')' ∨ c = '^' ∨ c = '$' then
        none
      else some (.char c, rest)

end

/-- Construction of `new RegExp("^" + pattern + "$", "i")`: parse of the
interpolated name, `none` standing for the thrown SyntaxError.  The
anchors are modelled by matching the parsed body against whole names. -/
def parseRx (pattern : String) : Option Rx :=
  match parseAlt (4 * pattern.length + 4) pattern.data with
  | some (r, []) => some r
  | _ => none

/-- Membership of a character in a class, by ASCII case folding. -/
def clsItemMatchCI (c : Char) : ClsItem → Bool
  | .single d => d.toLower == c.toLower
  | .range lo hi => decide (lo.toLower ≤ c.toLower) && decide (c.toLower ≤ hi.toLower)

/-- Nullability: whether the expression accepts the empty string. -/
def Rx.nullable : Rx → Bool
  | .fail => false
  | .eps => true
  | .char _ => false
  | .any => false
  | .cls _ _ => false
  | .seq a b => a.nullable && b.nullable
  | .alt a b => a.nullable || b.nullable
  | .star _ => true

/-- Brzozowski derivative with respect to one input character, matching
characters case-insensitively (the `"i"` flag, ASCII folding). -/
def Rx.deriv : Rx → Char → Rx
  | .fail, _ => .fail
  | .eps, _ => .fail
  | .char d, c => if d.toLower == c.toLower then .eps else .fail
  | .any, _ => .eps
  | .cls neg items, c =>
      if (if neg then !(items.any (clsItemMatchCI c)) else items.any (clsItemMatchCI c))
      then .eps else .fail
  | .seq a b, c =>
      if a.nullable then .alt (.seq (a.deriv c) b) (b.deriv c) else .seq (a.deriv c) b
  | .alt a b, c => .alt (a.deriv c) (b.deriv c)
  | .star a, c => .seq (a.deriv c) (.star a)

/-- Acceptance of a whole character list by iterated derivatives. -/
def rxMatch (r : Rx) : List Char → Bool
  | [] => r.nullable
  | c :: s => rxMatch (r.deriv c) s

/-- Test of the anchored case-insensitive pattern against a stored name. -/
def rxFullMatchCI (r : Rx) (hay : String) : Bool := rxMatch r hay.data

/-- Sequence of literal characters: the parse of a plain name. -/
def mkLit (cs : List Char) : Rx := cs.foldr (fun c r => .seq (.char c) r) .eps

/-! ## Data model -/

/-- A `Subject` document (`models/learning/subject.model`). -/
structure Subject where
  id : Nat
  name : String
  code : String
  description : String
  category : String
  examTypes : List String
  countries : List String
  educationLevels : List String
  series : List String
  isActive : Bool
  isPremium : Bool
  isFeatured : Bool
  status : String
deriving Repr, DecidableEq

/-- Input payload for `createSubject` (the `id` stands for the identifier the
persistence layer assigns on insert). -/
structure SubjectData where
  id : Nat
  name : String
  code : String
  description : String := ""
  category : String := ""
  examTypes : List String := []
  countries : List String := []
  educationLevels : List String := []
  series : List String := []
  isPremium : Bool := false
  isFeatured : Bool := false
deriving Repr, DecidableEq

/-- Query-string options accepted by `getSubjects`; absent keys are `none`.
Boolean filters arrive as raw query strings, compared against `"true"`. -/
structure SubjectQuery where
  page : Option Nat := none
  limit : Option Nat := none
  category : Option String := none
  examType : Option String := none
  country : Option String := none
  educationLevel : Option String := none
  series : Option String := none
  isActive : Option String := none
  isPremium : Option String := none
  isFeatured : Option String := none
  search : Option String := none
  sortBy : Option String := none
  sortOrder : Option String := none
deriving Repr, DecidableEq

/-- Pagination block returned by `getSubjects`. -/
structure SubjectPagination where
  currentPage : Nat
  totalPages : Nat
  totalCount : Nat
  hasNextPage : Bool
  hasPrevPage : Bool
deriving Repr, DecidableEq

/-- Result shape of `getSubjects`. -/
structure SubjectListResult where
  subjects : List Subject
  pagination : SubjectPagination
deriving Repr, DecidableEq

/-- `retakePolicy` sub-document of a quiz: attempt cap and cooldown (ms). -/
structure RetakePolicy where
  maxAttempts : Nat
  cooldown : Int
deriving Repr, DecidableEq

/-- Denormalized `analytics` snapshot stored on a quiz. -/
structure QuizAnalytics where
  totalAttempts : Nat
  averageScore : Int
  averageTime : Int
  completionRate : Int
deriving Repr, DecidableEq

/-- A `Quiz` document (`models/assessment/quiz.model`). -/
structure Quiz where
  id : Nat
  subjectId : Nat
  title : String
  description : String
  tags : List String
  level : String
  difficulty : String
  premiumOnly : Bool
  questionIds : List Nat
  totalQuestions : Nat
  totalPoints : ℚ
  retakePolicy : RetakePolicy
  analytics : Option QuizAnalytics
  isActive : Bool
  createdBy : Nat
  createdAt : Int
deriving Repr, DecidableEq

/-- A `QuizResult` document (`models/results/quiz.result.model`); immutable. -/
structure QuizResult where
  id : Nat
  quizId : Nat
  userId : Nat
  score : ℚ
  timeTaken : ℚ
  createdAt : Int
deriving Repr, DecidableEq

/-- The persistence state the quiz service operates on: the `Quiz` collection
and the `QuizResult` collection. -/
structure QuizStore where
  quizzes : List Quiz
  results : List QuizResult
deriving Repr, DecidableEq

/-- Partial update payload for `updateQuiz`; absent fields are `none`. -/
structure QuizPatch where
  questionIds : Option (List Nat) := none
  totalQuestions : Option Nat := none
  title : Option String := none
  isActive : Option Bool := none
deriving Repr, DecidableEq

/-- Options accepted by `getAllQuizzes`; absent keys are `none` and the
source supplies defaults (`page = 1`, `limit = 10`, `isActive = true`). -/
structure QuizListOptions where
  page : Option Nat := none
  limit : Option Nat := none
  sortBy : Option String := none
  sortOrder : Option String := none
  search : Option String := none
  subjectId : Option Nat := none
  level : Option String := none
  difficulty : Option String := none
  premiumOnly : Option Bool := none
  isActive : Option Bool := none
deriving Repr, DecidableEq

/-- Pagination block returned by `getAllQuizzes`. -/
structure QuizPagination where
  currentPage : Nat
  totalPages : Nat
  totalItems : Nat
  itemsPerPage : Nat
  hasNext : Bool
  hasPrev : Bool
deriving Repr, DecidableEq

/-- Payload of the `getAllQuizzes` envelope. -/
structure QuizListResult where
  quizzes : List Quiz
  pagination : QuizPagination
deriving Repr, DecidableEq

/-- Payload of the `canUserTakeQuiz` envelope; fields the source leaves out
of a branch are `none`. -/
structure EligibilityInfo where
  canTake : Bool
  reason : Option String
  attemptsUsed : Nat
  maxAttempts : Nat
  nextRetakeTime : Option Int
deriving Repr, DecidableEq

/-- One row of the five-bucket score distribution. -/
structure ScoreBucket where
  label : String
  count : Nat
deriving Repr, DecidableEq

/-- One 20% segment of `totalPoints` (the `ranges` array of
`calculateScoreDistribution`). -/
structure ScoreRange where
  label : String
  lo : ℚ
  hi : ℚ
deriving Repr, DecidableEq

/-! ## SubjectService -/

namespace SubjectService

/-- Modelled from the spec: the `Subject` mongoose schema is not under `src/`;
per §3 it stores `code` uppercased, and new subjects start active. -/
def mkSubject (d : SubjectData) : Subject :=
  { id := d.id, name := d.name, code := upperStr d.code,
    description := d.description, category := d.category,
    examTypes := d.examTypes, countries := d.countries,
    educationLevels := d.educationLevels, series := d.series,
    isActive := true, isPremium := d.isPremium, isFeatured := d.isFeatured,
    status := "active" }

/-- `createSubject`: pre-checks code (uppercased exact match), then the
name via `new RegExp("^" + name + "$", "i")` built from the raw input —
a name with regular-expression syntax is interpolated unescaped, so the
duplicate lookup runs that pattern (`parseRx`), and an invalid pattern
throws (the SyntaxError escapes the service and surfaces as a 500).
Inserts only when both checks pass; a conflict leaves the store
unchanged. -/
def createSubject (store : List Subject) (subjectData : SubjectData) :
    List Subject × Except ApiError Subject :=
  if store.any (fun s => s.code == upperStr subjectData.code) then
    (store, .error ⟨409, "Une matière avec ce code existe déjà"⟩)
  else
    match parseRx subjectData.name with
    | none => (store, .error ⟨500, "Internal server error"⟩)
    | some r =>
      if store.any (fun s => rxFullMatchCI r s.name) then
        (store, .error ⟨409, "Une matière avec ce nom existe déjà"⟩)
      else
        let subject := mkSubject subjectData
        (store ++ [subject], .ok subject)

/-- The filter `getSubjects` builds: always `status: "active"`, plus the
recognized optional keys and the free-text search clause. -/
def subjectMatches (query : SubjectQuery) (s : Subject) : Bool :=
  s.status == "active"
  && (match query.category with | none => true | some c => s.category == c)
  && (match query.examType with | none => true | some e => s.examTypes.contains e)
  && (match query.country with | none => true | some c => s.countries.contains c)
  && (match query.educationLevel with | none => true | some e => s.educationLevels.contains e)
  && (match query.series with | none => true | some v => s.series.contains v)
  && (match query.isActive with | none => true | some v => s.isActive == (v == "true"))
  && (match query.isPremium with | none => true | some v => s.isPremium == (v == "true"))
  && (match query.isFeatured with | none => true | some v => s.isFeatured == (v == "true"))
  && (match query.search with
      | none => true
      | some t => containsCI s.name t || containsCI s.description t || containsCI s.code t)

/-- Comparator derived from `sortBy` / `sortOrder` (default `name` asc). -/
def subjectLe (sortBy sortOrder : String) (a b : Subject) : Bool :=
  let key : Subject → String := fun s => if sortBy == "code" then s.code else s.name
  if sortOrder == "desc" then decide (key b ≤ key a) else decide (key a ≤ key b)

/-- `getSubjects`: filter, sort, skip `(page-1)*limit`, take `limit`, and
assemble the pagination block exactly as the source computes it. -/
def getSubjects (store : List Subject) (query : SubjectQuery) : SubjectListResult :=
  let page := query.page.getD 1
  let limit := query.limit.getD 10
  let sortBy := query.sortBy.getD "name"
  let sortOrder := query.sortOrder.getD "asc"
  let filtered := store.filter (subjectMatches query)
  let total := filtered.length
  let skip := (page - 1) * limit
  { subjects := ((sortWith (subjectLe sortBy sortOrder) filtered).drop skip).take limit
    pagination :=
      { currentPage := page
        totalPages := jsCeilDiv total limit
        totalCount := total
        hasNextPage := decide (page < jsCeilDiv total limit)
        hasPrevPage := decide (1 < page) } }

/-- `deleteSubject`: NotFound when absent, otherwise a soft transition
(`isActive := false`, `status := "inactive"`); never removes the record. -/
def deleteSubject (store : List Subject) (subjectId : Nat) :
    List Subject × Except ApiError Unit :=
  if store.any (fun s => s.id == subjectId) then
    (store.map fun s =>
      if s.id == subjectId then { s with isActive := false, status := "inactive" } else s,
     .ok ())
  else
    (store, .error ⟨404, "Matière non trouvée"⟩)

end SubjectService

/-! ## QuizService -/

namespace QuizService

/-- `Quiz.findById` over the store. -/
def findQuiz (store : QuizStore) (quizId : Nat) : Option Quiz :=
  store.quizzes.find? (fun q => q.id == quizId)

/-- The question-count fixup at the top of `updateQuiz` (and `createQuiz`):
only when the patch carries `questionIds` and a truthy (nonzero)
`totalQuestions` that disagrees with the array length is `totalQuestions`
overwritten with the length. -/
def normalizeQuizPatch (updateData : QuizPatch) : QuizPatch :=
  match updateData.questionIds, updateData.totalQuestions with
  | some qs, some tq =>
      if tq ≠ 0 ∧ qs.length ≠ tq then
        { updateData with totalQuestions := some qs.length }
      else updateData
  | _, _ => updateData

/-- Field-wise merge of a patch into a stored quiz (`findByIdAndUpdate`). -/
def applyQuizPatch (quiz : Quiz) (p : QuizPatch) : Quiz :=
  { quiz with
    questionIds := p.questionIds.getD quiz.questionIds
    totalQuestions := p.totalQuestions.getD quiz.totalQuestions
    title := p.title.getD quiz.title
    isActive := p.isActive.getD quiz.isActive }

/-- `updateQuiz`: normalize the patch, then find-and-update; NotFound when
the id does not resolve. -/
def updateQuiz (store : QuizStore) (quizId : Nat) (updateData : QuizPatch) :
    QuizStore × Except ApiError (ApiResponse Quiz) :=
  let p := normalizeQuizPatch updateData
  match findQuiz store quizId with
  | none => (store, .error ⟨404, "Quiz not found"⟩)
  | some quiz =>
      ({ store with quizzes :=
          store.quizzes.map fun q => if q.id == quizId then applyQuizPatch q p else q },
       .ok ⟨200, applyQuizPatch quiz p, "Quiz updated successfully"⟩)

/-- `getQuizById`: NotFound when absent (no `isActive` filtering). -/
def getQuizById (store : QuizStore) (quizId : Nat) : Except ApiError (ApiResponse Quiz) :=
  match findQuiz store quizId with
  | none => .error ⟨404, "Quiz not found"⟩
  | some quiz => .ok ⟨200, quiz, "Quiz retrieved successfully"⟩

/-- `deleteQuiz`: hard delete when no result references the quiz, soft
delete (`isActive := false`) when at least one does; the two outcomes carry
distinct messages. -/
def deleteQuiz (store : QuizStore) (quizId : Nat) :
    QuizStore × Except ApiError (ApiResponse Unit) :=
  match findQuiz store quizId with
  | none => (store, .error ⟨404, "Quiz not found"⟩)
  | some _ =>
    if store.results.any (fun r => r.quizId == quizId) then
      ({ store with quizzes :=
          store.quizzes.map fun q => if q.id == quizId then { q with isActive := false } else q },
       .ok ⟨200, (), "Quiz deactivated successfully (has existing results)"⟩)
    else
      ({ store with quizzes := store.quizzes.filter fun q => !(q.id == quizId) },
       .ok ⟨200, (), "Quiz deleted successfully"⟩)

/-- The filter `getAllQuizzes` builds from its options; `extraFilter` stands
for the keys merged in from the separate `filters` argument
(`Object.assign(query, filters)`). -/
def quizMatches (extraFilter : Quiz → Bool) (options : QuizListOptions) (q : Quiz) : Bool :=
  q.isActive == options.isActive.getD true
  && (match options.subjectId with | none => true | some sid => q.subjectId == sid)
  && (match options.level with | none => true | some l => q.level == l)
  && (match options.difficulty with | none => true | some d => q.difficulty == d)
  && (match options.premiumOnly with | none => true | some p => q.premiumOnly == p)
  && (match options.search with
      | none => true
      | some t => containsCI q.title t || containsCI q.description t
            || q.tags.any (fun tag => containsCI tag t))
  && extraFilter q

/-- Comparator derived from `sortBy` / `sortOrder` (default `createdAt`
descending). -/
def quizLe (sortBy sortOrder : String) (a b : Quiz) : Bool :=
  if sortOrder == "desc" then
    (if sortBy == "title" then decide (b.title ≤ a.title) else decide (b.createdAt ≤ a.createdAt))
  else
    (if sortBy == "title" then decide (a.title ≤ b.title) else decide (a.createdAt ≤ b.createdAt))

/-- `getAllQuizzes`: filter, sort, skip `(page-1)*limit`, take `limit`, and
assemble the pagination block exactly as the source computes it. -/
def getAllQuizzes (store : QuizStore) (extraFilter : Quiz → Bool)
    (options : QuizListOptions) : ApiResponse QuizListResult :=
  let page := options.page.getD 1
  let limit := options.limit.getD 10
  let sortBy := options.sortBy.getD "createdAt"
  let sortOrder := options.sortOrder.getD "desc"
  let filtered := store.quizzes.filter (quizMatches extraFilter options)
  let total := filtered.length
  let skip := (page - 1) * limit
  ⟨200,
   { quizzes := ((sortWith (quizLe sortBy sortOrder) filtered).drop skip).take limit
     pagination :=
       { currentPage := page
         totalPages := jsCeilDiv total limit
         totalItems := total
         itemsPerPage := limit
         hasNext := decide (page < jsCeilDiv total limit)
         hasPrev := decide (1 < page) } },
   "Quizzes retrieved successfully"⟩

/-- Modelled from the spec: `Quiz.canUserRetake` lives in the quiz model,
which is not under `src/`; per §4.2 a user may retake while the attempt
count is below `retakePolicy.maxAttempts`. -/
def canUserRetake (quiz : Quiz) (attempts : Nat) : Bool :=
  attempts < quiz.retakePolicy.maxAttempts

/-- Modelled from the spec: `Quiz.getNextRetakeTime` lives in the quiz
model, which is not under `src/`; per §4.2 it is the most recent attempt's
timestamp plus the configured cooldown. -/
def getNextRetakeTime (quiz : Quiz) (lastAttemptAt : Int) : Int :=
  lastAttemptAt + quiz.retakePolicy.cooldown

/-- The results of one user on one quiz (`QuizResult.countDocuments` /
`findOne` filter). -/
def userQuizResults (store : QuizStore) (quizId userId : Nat) : List QuizResult :=
  store.results.filter fun r => r.quizId == quizId && r.userId == userId

/-- `findOne().sort(createdAt: -1)`: the attempt with the greatest
`createdAt`, first occurrence winning ties. -/
def latestAttempt (rs : List QuizResult) : Option QuizResult :=
  rs.foldl
    (fun best r =>
      match best with
      | none => some r
      | some b => if b.createdAt < r.createdAt then some r else some b)
    none

/-- `canUserTakeQuiz` at instant `now`.  When the retake policy is
exhausted, the response exposes `nextRetakeTime` only when it is strictly
in the future.  When the policy is exhausted with no recorded attempt, the
source dereferences a null `lastAttempt` and the thrown TypeError surfaces
as the 500 wrapper. -/
def canUserTakeQuiz (store : QuizStore) (quizId userId : Nat) (now : Int) :
    Except ApiError (ApiResponse EligibilityInfo) :=
  match findQuiz store quizId with
  | none => .error ⟨404, "Quiz not found"⟩
  | some quiz =>
    let userAttempts := (userQuizResults store quizId userId).length
    if canUserRetake quiz userAttempts then
      .ok ⟨200,
        { canTake := true, reason := none, attemptsUsed := userAttempts,
          maxAttempts := quiz.retakePolicy.maxAttempts, nextRetakeTime := none },
        "Success"⟩
    else
      match latestAttempt (userQuizResults store quizId userId) with
      | none => .error ⟨500, "Failed to check quiz eligibility"⟩
      | some lastAttempt =>
        let nextRetakeTime := getNextRetakeTime quiz lastAttempt.createdAt
        .ok ⟨200,
          { canTake := false, reason := some "Maximum attempts reached",
            attemptsUsed := userAttempts,
            maxAttempts := quiz.retakePolicy.maxAttempts,
            nextRetakeTime := if now < nextRetakeTime then some nextRetakeTime else none },
          "Success"⟩

/-- All results referencing one quiz (`QuizResult.find` filter). -/
def quizResultsFor (store : QuizStore) (quizId : Nat) : List QuizResult :=
  store.results.filter fun r => r.quizId == quizId

/-- The analytics object `updateQuizAnalytics` builds from a nonempty
result set: attempt count, rounded mean score, rounded mean time, and the
rounded percentage of results with positive score. -/
def computeQuizAnalytics (results : List QuizResult) : QuizAnalytics :=
  let totalAttempts := results.length
  let totalScore := results.foldl (fun sum r => sum + r.score) 0
  let totalTime := results.foldl (fun sum r => sum + r.timeTaken) 0
  let completedResults := results.filter fun r => decide (0 < r.score)
  { totalAttempts := totalAttempts
    averageScore := jsRound (totalScore / totalAttempts)
    averageTime := jsRound (totalTime / totalAttempts)
    completionRate := jsRound (((completedResults.length : ℚ) / totalAttempts) * 100) }

/-- `updateQuizAnalytics`: with zero results it returns before persisting
anything (bare `return`, i.e. `none`); otherwise it stores the recomputed
snapshot on the quiz and returns the success envelope. -/
def updateQuizAnalytics (store : QuizStore) (quizId : Nat) :
    QuizStore × Option (ApiResponse QuizAnalytics) :=
  let results := quizResultsFor store quizId
  if results.length == 0 then (store, none)
  else
    let analytics := computeQuizAnalytics results
    ({ store with quizzes :=
        store.quizzes.map fun q =>
          if q.id == quizId then { q with analytics := some analytics } else q },
     some ⟨200, analytics, "Quiz analytics updated successfully"⟩)

/-- The `ranges` array of `calculateScoreDistribution`: 20% segments of
`totalPoints` (`0.2 = 1/5`, and so on). -/
def scoreRanges (totalPoints : ℚ) : List ScoreRange :=
  [ ⟨"0-20%", 0, totalPoints * (1/5)⟩,
    ⟨"21-40%", totalPoints * (1/5), totalPoints * (2/5)⟩,
    ⟨"41-60%", totalPoints * (2/5), totalPoints * (3/5)⟩,
    ⟨"61-80%", totalPoints * (3/5), totalPoints * (4/5)⟩,
    ⟨"81-100%", totalPoints * (4/5), totalPoints⟩ ]

/-- `calculateScoreDistribution`: each bucket counts the results with
`range.lo < score ≤ range.hi` (strict lower bound, inclusive upper). -/
def calculateScoreDistribution (results : List QuizResult) (totalPoints : ℚ) :
    List ScoreBucket :=
  (scoreRanges totalPoints).map fun range =>
    ⟨range.label,
     (results.filter fun r => decide (range.lo < r.score) && decide (r.score ≤ range.hi)).length⟩

end QuizService

/-! ## PhysicsLessonController -/

/-- The slice of a lesson the controller loads
(`Lesson.findById(id).select("metadata.createdBy")`). -/
structure Lesson where
  id : Nat
  createdBy : Nat
deriving Repr, DecidableEq

/-- The authenticated actor (`req.user`). -/
structure AuthUser where
  id : Nat
  role : String
deriving Repr, DecidableEq

/-- Outcome of a controller guard: either an error thrown before the
service runs, or the service call with its arguments. -/
inductive ControllerOutcome where
  | failed (e : ApiError)
  | serviceCalled (lessonId : Nat) (actorId : Nat)
deriving Repr, DecidableEq

namespace PhysicsLessonController

/-- `updateLesson` guard: 404 when the lesson is absent, 403 when the actor
is neither the creator nor an admin, otherwise the service is invoked. -/
def updateLesson (lessons : List Lesson) (user : AuthUser) (id : Nat) : ControllerOutcome :=
  match lessons.find? (fun l => l.id == id) with
  | none => .failed ⟨404, "Leçon de physique introuvable"⟩
  | some lesson =>
    if lesson.createdBy != user.id && user.role != "admin" then
      .failed ⟨403, "Non autorisé à mettre à jour cette leçon de physique"⟩
    else
      .serviceCalled id user.id

/-- `deleteLesson` guard: same shape as `updateLesson`. -/
def deleteLesson (lessons : List Lesson) (user : AuthUser) (id : Nat) : ControllerOutcome :=
  match lessons.find? (fun l => l.id == id) with
  | none => .failed ⟨404, "Leçon de physique introuvable"⟩
  | some lesson =>
    if lesson.createdBy != user.id && user.role != "admin" then
      .failed ⟨403, "Non autorisé à supprimer cette leçon de physique"⟩
    else
      .serviceCalled id user.id

end PhysicsLessonController

/-! ## Concrete evaluation fixtures -/

/-- A stored quiz with one question, used as concrete input. -/
def fixQuiz : Quiz :=
  { id := 1, subjectId := 1, title := "Mecanique", description := "",
    tags := [], level := "terminale", difficulty := "intermediate",
    premiumOnly := false, questionIds := [10], totalQuestions := 1,
    totalPoints := 20, retakePolicy := ⟨3, 3600000⟩, analytics := none,
    isActive := true, createdBy := 7, createdAt := 1000 }

/-- A store holding `fixQuiz` and no results. -/
def fixStoreNoResults : QuizStore := ⟨[fixQuiz], []⟩

/-- A patch that changes `questionIds` but omits `totalQuestions`. -/
def cexPatch : QuizPatch := { questionIds := some [10, 11] }

/-- A patch carrying `questionIds` and a disagreeing nonzero count. -/
def recomputePatch : QuizPatch :=
  { questionIds := some [10, 11, 12], totalQuestions := some 7 }

/-- The response `updateQuiz` produces for `recomputePatch` on `fixQuiz`. -/
def recomputeResp : ApiResponse Quiz :=
  ⟨200, { fixQuiz with questionIds := [10, 11, 12], totalQuestions := 3 },
   "Quiz updated successfully"⟩

/-- `fixQuiz` restricted to one allowed attempt. -/
def retakeQuiz : Quiz := { fixQuiz with retakePolicy := ⟨1, 3600000⟩ }

/-- One recorded attempt of user 2 on quiz 1. -/
def attemptResult : QuizResult := ⟨1, 1, 2, 10, 300, 500⟩

/-- A store where user 2 has exhausted `retakeQuiz`'s single attempt. -/
def retakeStore : QuizStore := ⟨[retakeQuiz], [attemptResult]⟩

/-- An active stored subject. -/
def fixSubject : Subject :=
  { id := 1, name := "Maths", code := "MATH", description := "",
    category := "science", examTypes := [], countries := [],
    educationLevels := [], series := [], isActive := true,
    isPremium := false, isFeatured := false, status := "active" }

/-- A subject store holding only `fixSubject`. -/
def fixSubjects : List Subject := [fixSubject]

/-- The query with every key absent (all defaults apply). -/
def emptyQuery : SubjectQuery := {}

/-- The options record with every key absent (all defaults apply). -/
def emptyQuizOptions : QuizListOptions := {}

/-- An empty merged-filters argument for `getAllQuizzes`. -/
def noExtraFilter : Quiz → Bool := fun _ => true

/-- Create payload colliding case-insensitively with `fixSubject`'s code. -/
def dupCodeData : SubjectData := { id := 2, name := "Physique", code := "math" }

/-- A stored lesson owned by user 9. -/
def fixLesson : Lesson := ⟨5, 9⟩

/-- An authenticated non-admin user distinct from the lesson owner. -/
def strangerUser : AuthUser := ⟨3, "student"⟩

/-- An active stored subject whose name contains regex metacharacters. -/
def parenSubject : Subject :=
  { id := 3, name := "c(x)", code := "CX", description := "",
    category := "", examTypes := [], countries := [],
    educationLevels := [], series := [], isActive := true,
    isPremium := false, isFeatured := false, status := "active" }

/-- A subject store holding only `parenSubject`. -/
def parenStore : List Subject := [parenSubject]

/-- Create payload whose name collides case-insensitively with
`parenSubject` but whose interpolated pattern `^C(x)$` matches only
`"Cx"`; its code does not collide. -/
def parenData : SubjectData := { id := 4, name := "C(x)", code := "AUTRE" }

/-! ## Helper lemmas -/

theorem sortWith_cons (le : α → α → Bool) (y : α) (ys : List α) :
    sortWith le (y :: ys) = insertSorted le y (sortWith le ys) := rfl

theorem length_insertSorted (le : α → α → Bool) (x : α) (l : List α) :
    (insertSorted le x l).length = l.length + 1 := by
  induction l with
  | nil => rfl
  | cons y ys ih =>
      simp only [insertSorted]
      split <;> simp [ih]

theorem length_sortWith (le : α → α → Bool) (l : List α) :
    (sortWith le l).length = l.length := by
  induction l with
  | nil => rfl
  | cons y ys ih =>
      rw [sortWith_cons, length_insertSorted, ih]
      rfl

theorem mem_insertSorted (le : α → α → Bool) (x a : α) (l : List α) :
    a ∈ insertSorted le x l ↔ a = x ∨ a ∈ l := by
  induction l with
  | nil => simp [insertSorted]
  | cons y ys ih =>
      simp only [insertSorted]
      split
      · simp
      · simp only [List.mem_cons, ih]
        tauto

theorem mem_sortWith (le : α → α → Bool) (a : α) (l : List α) :
    a ∈ sortWith le l ↔ a ∈ l := by
  induction l with
  | nil => simp [sortWith]
  | cons y ys ih =>
      rw [sortWith_cons]
      simp only [mem_insertSorted, List.mem_cons, ih]

theorem jsCeilDiv_eq_ceil (t l : Nat) (hl : 0 < l) :
    jsCeilDiv t l = ⌈(t : ℚ) / (l : ℚ)⌉₊ := by
  rcases Nat.eq_zero_or_pos t with ht | ht
  · subst ht
    have h0 : jsCeilDiv 0 l = 0 := by
      unfold jsCeilDiv
      exact Nat.div_eq_of_lt (by omega)
    rw [h0]
    simp
  · have hm1 : 1 ≤ jsCeilDiv t l := by
      unfold jsCeilDiv
      exact (Nat.one_le_div_iff hl).2 (by omega)
    have hA : jsCeilDiv t l * l ≤ t + l - 1 := Nat.div_mul_le_self _ _
    have hB : t + l - 1 < jsCeilDiv t l * l + l := by
      have h := (Nat.div_lt_iff_lt_mul hl).mp (Nat.lt_succ_self ((t + l - 1) / l))
      calc t + l - 1 < ((t + l - 1) / l + 1) * l := h
        _ = (t + l - 1) / l * l + l := by ring
    have hub : t ≤ jsCeilDiv t l * l := by
      generalize jsCeilDiv t l * l = k at hB ⊢
      omega
    have hlb : (jsCeilDiv t l - 1) * l < t := by
      rw [Nat.sub_mul, one_mul]
      generalize jsCeilDiv t l * l = k at hA ⊢
      omega
    symm
    rw [Nat.ceil_eq_iff (by omega)]
    constructor
    · rw [lt_div_iff₀ (by exact_mod_cast hl)]
      exact_mod_cast hlb
    · rw [div_le_iff₀ (by exact_mod_cast hl)]
      exact_mod_cast hub

theorem find?_filter_not {α : Type} (p : α → Bool) (l : List α) :
    (l.filter fun x => !(p x)).find? p = none := by
  rw [List.find?_eq_none]
  intro x hx
  have hmem := (List.mem_filter.mp hx).2
  simp only [Bool.not_eq_true'] at hmem
  simp [hmem]

theorem find?_map_update {α : Type} (p : α → Bool) (g : α → α)
    (hg : ∀ x, p x = true → p (g x) = true)
    (l : List α) (a : α) (h : l.find? p = some a) :
    (l.map fun x => if p x then g x else x).find? p = some (g a) := by
  induction l with
  | nil => simp at h
  | cons y ys ih =>
      by_cases hy : p y = true
      · rw [List.find?_cons_of_pos ys hy] at h
        injection h with h
        subst h
        simp only [List.map_cons, if_pos hy]
        exact List.find?_cons_of_pos _ (hg y hy)
      · rw [List.find?_cons_of_neg ys hy] at h
        simp only [List.map_cons, if_neg hy]
        rw [List.find?_cons_of_neg _ hy]
        exact ih h

/-! ## C1: totalQuestions on quiz update -/

/-- C1 (counterexample): a patch that changes `questionIds` (to length 2)
while omitting `totalQuestions` leaves the stored `totalQuestions` at its
stale value 1, so the stored count does not equal the new `questionIds`
length. -/
theorem updateQuiz_totalQuestions_stale_without_patch_count :
    cexPatch.questionIds = some [10, 11]
    ∧ ((QuizService.updateQuiz fixStoreNoResults 1 cexPatch).1.quizzes.map
        Quiz.totalQuestions) = [1]
    ∧ ((QuizService.updateQuiz fixStoreNoResults 1 cexPatch).2.toOption.map
        fun r => r.data.totalQuestions) = some 1
    ∧ (1 : Nat) ≠ [10, 11].length := by
  decide

/-- Normalization resolves `totalQuestions` to the supplied array's length
whenever both fields are present and the count is truthy. -/
theorem normalizeQuizPatch_totalQuestions (p : QuizPatch) (qs : List Nat) (tq : Nat)
    (hqs : p.questionIds = some qs) (htq : p.totalQuestions = some tq)
    (htq0 : tq ≠ 0) :
    (QuizService.normalizeQuizPatch p).totalQuestions = some qs.length := by
  obtain ⟨oqs, otq, ot, oa⟩ := p
  change oqs = some qs at hqs
  change otq = some tq at htq
  subst hqs
  subst htq
  unfold QuizService.normalizeQuizPatch
  dsimp only
  by_cases hlen : qs.length = tq
  · rw [if_neg (fun h : tq ≠ 0 ∧ qs.length ≠ tq => h.2 hlen)]
    dsimp only
    rw [hlen]
  · rw [if_pos ⟨htq0, hlen⟩]

/-- C1 (amended): when the patch supplies `questionIds` together with a
truthy (nonzero) `totalQuestions`, a successful `updateQuiz` stores
`totalQuestions` equal to the new `questionIds` length. -/
theorem updateQuiz_recomputes_totalQuestions_when_supplied
    (store : QuizStore) (quizId : Nat) (updateData : QuizPatch)
    (qs : List Nat) (tq : Nat)
    (hqs : updateData.questionIds = some qs)
    (htq : updateData.totalQuestions = some tq)
    (htq0 : tq ≠ 0)
    (resp : ApiResponse Quiz)
    (hok : (QuizService.updateQuiz store quizId updateData).2 = .ok resp) :
    resp.data.totalQuestions = qs.length := by
  have hp : (QuizService.normalizeQuizPatch updateData).totalQuestions
      = some qs.length :=
    normalizeQuizPatch_totalQuestions updateData qs tq hqs htq htq0
  unfold QuizService.updateQuiz at hok
  cases hfind : QuizService.findQuiz store quizId with
  | none =>
      rw [hfind] at hok
      simp at hok
  | some quiz =>
      rw [hfind] at hok
      dsimp only at hok
      simp only [Except.ok.injEq] at hok
      subst hok
      simp [QuizService.applyQuizPatch, hp]

/-- C1 (witness): concrete run of the amended theorem. -/
theorem updateQuiz_recomputes_totalQuestions_witness :
    recomputePatch.questionIds = some [10, 11, 12]
    ∧ recomputePatch.totalQuestions = some 7
    ∧ (7 : Nat) ≠ 0
    ∧ (QuizService.updateQuiz fixStoreNoResults 1 recomputePatch).2 = .ok recomputeResp
    ∧ recomputeResp.data.totalQuestions = [10, 11, 12].length :=
  ⟨rfl, rfl, by decide, by decide,
   updateQuiz_recomputes_totalQuestions_when_supplied fixStoreNoResults 1
     recomputePatch [10, 11, 12] 7 rfl rfl (by decide) recomputeResp (by decide)⟩

/-! ## C10: analytics recomputation with zero results -/

/-- C10: with zero results referencing the quiz, `updateQuizAnalytics`
leaves the store untouched and produces no response envelope. -/
theorem updateQuizAnalytics_noop_without_results
    (store : QuizStore) (quizId : Nat)
    (h : (QuizService.quizResultsFor store quizId).length = 0) :
    QuizService.updateQuizAnalytics store quizId = (store, none) := by
  unfold QuizService.updateQuizAnalytics
  simp [h]

/-- C10 (witness): concrete run on a store with no results. -/
theorem updateQuizAnalytics_noop_witness :
    (QuizService.quizResultsFor fixStoreNoResults 1).length = 0
    ∧ QuizService.updateQuizAnalytics fixStoreNoResults 1 = (fixStoreNoResults, none) :=
  ⟨by decide,
   updateQuizAnalytics_noop_without_results fixStoreNoResults 1 (by decide)⟩

/-! ## C8: lesson controller authorization guards -/

/-- C8: for update and delete, a found lesson whose creator differs from a
non-admin actor yields Forbidden (403) with no service call, and an absent
lesson yields NotFound (404) with no service call. -/
theorem lessonController_guards_ownership
    (lessons : List Lesson) (user : AuthUser) (id : Nat) :
    (∀ lesson, lessons.find? (fun l => l.id == id) = some lesson →
        lesson.createdBy ≠ user.id → user.role ≠ "admin" →
        PhysicsLessonController.updateLesson lessons user id
            = .failed ⟨403, "Non autorisé à mettre à jour cette leçon de physique"⟩
          ∧ PhysicsLessonController.deleteLesson lessons user id
            = .failed ⟨403, "Non autorisé à supprimer cette leçon de physique"⟩)
    ∧ (lessons.find? (fun l => l.id == id) = none →
        PhysicsLessonController.updateLesson lessons user id
            = .failed ⟨404, "Leçon de physique introuvable"⟩
          ∧ PhysicsLessonController.deleteLesson lessons user id
            = .failed ⟨404, "Leçon de physique introuvable"⟩) := by
  constructor
  · intro lesson hfind howner hrole
    have hcond : (lesson.createdBy != user.id && user.role != "admin") = true := by
      simp [bne_iff_ne, howner, hrole]
    constructor
    · unfold PhysicsLessonController.updateLesson
      rw [hfind]
      simp [hcond]
    · unfold PhysicsLessonController.deleteLesson
      rw [hfind]
      simp [hcond]
  · intro hnone
    constructor
    · unfold PhysicsLessonController.updateLesson
      rw [hnone]
    · unfold PhysicsLessonController.deleteLesson
      rw [hnone]

/-- C8 (witness): concrete runs of both guard branches. -/
theorem lessonController_guards_witness :
    ([fixLesson].find? (fun l => l.id == 5) = some fixLesson)
    ∧ fixLesson.createdBy ≠ strangerUser.id
    ∧ strangerUser.role ≠ "admin"
    ∧ PhysicsLessonController.updateLesson [fixLesson] strangerUser 5
        = .failed ⟨403, "Non autorisé à mettre à jour cette leçon de physique"⟩
    ∧ PhysicsLessonController.deleteLesson [fixLesson] strangerUser 5
        = .failed ⟨403, "Non autorisé à supprimer cette leçon de physique"⟩
    ∧ ([fixLesson].find? (fun l => l.id == 6) = none)
    ∧ PhysicsLessonController.updateLesson [fixLesson] strangerUser 6
        = .failed ⟨404, "Leçon de physique introuvable"⟩ :=
  ⟨by decide, by decide, by decide,
   ((lessonController_guards_ownership [fixLesson] strangerUser 5).1 fixLesson
     (by decide) (by decide) (by decide)).1,
   ((lessonController_guards_ownership [fixLesson] strangerUser 5).1 fixLesson
     (by decide) (by decide) (by decide)).2,
   by decide,
   ((lessonController_guards_ownership [fixLesson] strangerUser 6).2 (by decide)).1⟩

/-! ## C3: subject create uniqueness conflict -/

theorem regexPlainChar_spec (c : Char) (h : regexPlainChar c = true) :
    c ≠ '\\' ∧ c ≠ '^' ∧ c ≠ '$' ∧ c ≠ '.' ∧ c ≠ '|' ∧ c ≠ '?' ∧ c ≠ '*' ∧ c ≠ '+'
    ∧ c ≠ '(' ∧ c ≠ ')' ∧ c ≠ '[' ∧ c ≠ ']' ∧ c ≠ '{' ∧ c ≠ '}' := by
  unfold regexPlainChar at h
  simp only [Bool.not_eq_true', decide_eq_false_iff_not] at h
  push_neg at h
  exact h

theorem rxMatch_alt (s : List Char) : ∀ a b : Rx,
    rxMatch (.alt a b) s = (rxMatch a s || rxMatch b s) := by
  induction s with
  | nil => intro a b; rfl
  | cons c t ih =>
      intro a b
      show rxMatch (.alt (a.deriv c) (b.deriv c)) t = _
      rw [ih]
      rfl

theorem rxMatch_fail (s : List Char) : rxMatch .fail s = false := by
  induction s with
  | nil => rfl
  | cons c t ih => exact ih

theorem rxMatch_seq_fail (s : List Char) : ∀ r : Rx,
    rxMatch (.seq .fail r) s = false := by
  induction s with
  | nil => intro r; rfl
  | cons c t ih =>
      intro r
      show rxMatch (.seq .fail r) t = false
      exact ih r

theorem rxMatch_seq_eps (s : List Char) : ∀ r : Rx,
    rxMatch (.seq .eps r) s = rxMatch r s := by
  induction s with
  | nil =>
      intro r
      show (Rx.eps.nullable && r.nullable) = r.nullable
      rw [Rx.nullable, Bool.true_and]
  | cons c t ih =>
      intro r
      show rxMatch (.alt (.seq .fail r) (r.deriv c)) t = rxMatch (r.deriv c) t
      rw [rxMatch_alt, rxMatch_seq_fail, Bool.false_or]

theorem rxMatch_mkLit (hay : List Char) : ∀ cs : List Char,
    rxMatch (mkLit cs) hay = true ↔ hay.map Char.toLower = cs.map Char.toLower := by
  induction hay with
  | nil =>
      intro cs
      cases cs with
      | nil => simp [mkLit, rxMatch, Rx.nullable]
      | cons c cs' => simp [mkLit, rxMatch, Rx.nullable]
  | cons h t ih =>
      intro cs
      cases cs with
      | nil =>
          show rxMatch .fail t = true ↔ _
          rw [rxMatch_fail]
          simp
      | cons c cs' =>
          show rxMatch (.seq ((Rx.char c).deriv h) (mkLit cs')) t = true ↔ _
          by_cases hm : c.toLower = h.toLower
          · rw [show (Rx.char c).deriv h = .eps from by simp [Rx.deriv, hm]]
            rw [rxMatch_seq_eps, ih cs']
            simp only [List.map_cons, List.cons.injEq]
            constructor
            · intro he; exact ⟨hm.symm, he⟩
            · intro he; exact he.2
          · rw [show (Rx.char c).deriv h = .fail from by simp [Rx.deriv, hm]]
            rw [rxMatch_seq_fail]
            constructor
            · intro hfalse
              exact absurd hfalse (by decide)
            · intro he
              rw [List.map_cons, List.map_cons] at he
              injection he with he1 he2
              exact absurd he1.symm hm

theorem parseAtom_plain (fuel : Nat) (c : Char) (rest : List Char)
    (hc : regexPlainChar c = true) :
    parseAtom (fuel + 1) (c :: rest) = some (.char c, rest) := by
  obtain ⟨h1, h2, h3, h4, h5, h6, h7, h8, h9, h10, h11, h12, h13, h14⟩ :=
    regexPlainChar_spec c hc
  unfold parseAtom
  dsimp only
  rw [if_neg h9, if_neg h1, if_neg h4, if_neg h11,
      if_neg (by simp [h7, h8, h6, h5, h10, h2, h3])]

theorem parseAtomQ_plain (fuel : Nat) (c : Char) (rest : List Char)
    (hc : regexPlainChar c = true) (hrest : rest.all regexPlainChar = true) :
    parseAtomQ (fuel + 2) (c :: rest) = some (.char c, rest) := by
  unfold parseAtomQ
  rw [parseAtom_plain fuel c rest hc]
  cases rest with
  | nil => rfl
  | cons d rest2 =>
      have hd : regexPlainChar d = true := by
        rw [List.all_cons, Bool.and_eq_true] at hrest
        exact hrest.1
      obtain ⟨g1, g2, g3, g4, g5, g6, g7, g8, g9, g10, g11, g12, g13, g14⟩ :=
        regexPlainChar_spec d hd
      dsimp only
      rw [if_neg g7, if_neg g8, if_neg g6]

theorem parseSeq_plain : ∀ cs : List Char, cs.all regexPlainChar = true →
    ∀ fuel : Nat, parseSeq (2 * cs.length + 1 + fuel) cs = some (mkLit cs, []) := by
  intro cs
  induction cs with
  | nil =>
      intro _ fuel
      rw [show 2 * ([] : List Char).length + 1 + fuel = fuel + 1 from by
        simp only [List.length_nil]; omega]
      rfl
  | cons c cs' ih =>
      intro hall fuel
      rw [List.all_cons, Bool.and_eq_true] at hall
      obtain ⟨h1, h2, h3, h4, h5, h6, h7, h8, h9, h10, h11, h12, h13, h14⟩ :=
        regexPlainChar_spec c hall.1
      rw [show 2 * (c :: cs').length + 1 + fuel = (2 * cs'.length + 2 + fuel) + 1 from by
        simp only [List.length_cons]; omega]
      unfold parseSeq
      dsimp only
      rw [if_neg (by simp [h10, h5])]
      rw [show 2 * cs'.length + 2 + fuel = (2 * cs'.length + fuel) + 2 from by omega]
      rw [parseAtomQ_plain (2 * cs'.length + fuel) c cs' hall.1 hall.2]
      dsimp only
      rw [show 2 * cs'.length + fuel + 2 = 2 * cs'.length + 1 + (fuel + 1) from by omega]
      rw [ih hall.2 (fuel + 1)]
      rfl

theorem parseAlt_plain (cs : List Char) (hall : cs.all regexPlainChar = true)
    (fuel : Nat) :
    parseAlt (2 * cs.length + 2 + fuel) cs = some (mkLit cs, []) := by
  rw [show 2 * cs.length + 2 + fuel = (2 * cs.length + 1 + fuel) + 1 from by omega]
  unfold parseAlt
  rw [parseSeq_plain cs hall fuel]

theorem parseRx_plain (name : String) (h : regexPlainName name = true) :
    parseRx name = some (mkLit name.data) := by
  unfold parseRx
  have hlen : 4 * name.length + 4
      = 2 * name.data.length + 2 + (2 * name.data.length + 2) := by
    have : name.length = name.data.length := rfl
    omega
  rw [hlen, parseAlt_plain name.data h (2 * name.data.length + 2)]

/-- C3 (counterexample): the claim as stated fails on the code.  The name
`"C(x)"` collides case-insensitively with the stored active `"c(x)"`
(codes distinct), but the unescaped interpolation builds `^C(x)$`, which
matches only `"Cx"`: no Conflict is raised and the duplicate is
persisted. -/
theorem createSubject_regex_misses_paren_duplicate :
    lowerStr parenData.name = lowerStr parenSubject.name
    ∧ parenSubject ∈ parenStore
    ∧ parenSubject.status = "active"
    ∧ upperStr parenSubject.code = parenSubject.code
    ∧ (SubjectService.createSubject parenStore parenData).2.toOption.isSome = true
    ∧ (SubjectService.createSubject parenStore parenData).1
        = parenStore ++ [SubjectService.mkSubject parenData] := by
  decide

/-- C3 (amended): a create payload whose code collides case-insensitively
with an active stored subject, or whose metacharacter-free name collides
case-insensitively with one, makes `createSubject` fail with Conflict
(409) and leaves the store unchanged.  The hypothesis `hupper` records
the schema invariant that stored codes are uppercased. -/
theorem createSubject_conflict_keeps_store
    (store : List Subject) (subjectData : SubjectData) (s : Subject)
    (hmem : s ∈ store) (hactive : s.status = "active")
    (hupper : upperStr s.code = s.code)
    (hcollision : upperStr s.code = upperStr subjectData.code
        ∨ (regexPlainName subjectData.name = true
            ∧ lowerStr s.name = lowerStr subjectData.name)) :
    ∃ e : ApiError,
      SubjectService.createSubject store subjectData = (store, .error e)
      ∧ e.statusCode = 409 := by
  unfold SubjectService.createSubject
  rcases hcollision with hcode | ⟨hplain, hname⟩
  · have hany : (store.any fun x => x.code == upperStr subjectData.code) = true := by
      rw [List.any_eq_true]
      refine ⟨s, hmem, ?_⟩
      rw [beq_iff_eq]
      exact hupper.symm.trans hcode
    rw [if_pos hany]
    exact ⟨⟨409, "Une matière avec ce code existe déjà"⟩, rfl, rfl⟩
  · by_cases hcodeany : (store.any fun x => x.code == upperStr subjectData.code) = true
    · rw [if_pos hcodeany]
      exact ⟨⟨409, "Une matière avec ce code existe déjà"⟩, rfl, rfl⟩
    · rw [if_neg hcodeany, parseRx_plain subjectData.name hplain]
      dsimp only
      have hany2 : (store.any fun x =>
          rxFullMatchCI (mkLit subjectData.name.data) x.name) = true := by
        rw [List.any_eq_true]
        refine ⟨s, hmem, ?_⟩
        unfold rxFullMatchCI
        rw [rxMatch_mkLit]
        exact congrArg String.data hname
      rw [if_pos hany2]
      exact ⟨⟨409, "Une matière avec ce nom existe déjà"⟩, rfl, rfl⟩

/-- C3 (witness): creating with code `"math"` against stored `"MATH"`. -/
theorem createSubject_conflict_witness :
    fixSubject ∈ fixSubjects
    ∧ fixSubject.status = "active"
    ∧ upperStr fixSubject.code = fixSubject.code
    ∧ upperStr fixSubject.code = upperStr dupCodeData.code
    ∧ ∃ e : ApiError,
        SubjectService.createSubject fixSubjects dupCodeData = (fixSubjects, .error e)
        ∧ e.statusCode = 409 :=
  ⟨by decide, by decide, by decide, by decide,
   createSubject_conflict_keeps_store fixSubjects dupCodeData fixSubject
     (by decide) (by decide) (by decide) (Or.inl (by decide))⟩

/-! ## C4: quiz delete lifecycle -/

/-- C4: with zero referencing results the quiz is removed and a subsequent
`getQuizById` fails NotFound; with at least one result it stays retrievable
with `isActive = false`; the two outcomes carry distinct messages. -/
theorem deleteQuiz_lifecycle
    (store : QuizStore) (quizId : Nat) (quiz : Quiz)
    (hfind : QuizService.findQuiz store quizId = some quiz) :
    ((store.results.any fun r => r.quizId == quizId) = false →
      (QuizService.deleteQuiz store quizId).2
          = .ok ⟨200, (), "Quiz deleted successfully"⟩
      ∧ QuizService.getQuizById (QuizService.deleteQuiz store quizId).1 quizId
          = .error ⟨404, "Quiz not found"⟩)
    ∧ ((store.results.any fun r => r.quizId == quizId) = true →
      (QuizService.deleteQuiz store quizId).2
          = .ok ⟨200, (), "Quiz deactivated successfully (has existing results)"⟩
      ∧ ∃ q', QuizService.getQuizById (QuizService.deleteQuiz store quizId).1 quizId
            = .ok ⟨200, q', "Quiz retrieved successfully"⟩ ∧ q'.isActive = false)
    ∧ ("Quiz deleted successfully" : String)
        ≠ "Quiz deactivated successfully (has existing results)" := by
  have hg : ∀ x : Quiz, (x.id == quizId) = true →
      (({ x with isActive := false } : Quiz).id == quizId) = true := fun x h => h
  refine ⟨?_, ?_, by decide⟩
  · intro hres
    have hpair : QuizService.deleteQuiz store quizId
        = ({ store with quizzes := store.quizzes.filter fun q => !(q.id == quizId) },
           .ok ⟨200, (), "Quiz deleted successfully"⟩) := by
      unfold QuizService.deleteQuiz
      rw [hfind]
      dsimp only
      rw [hres]
      simp
    rw [hpair]
    refine ⟨rfl, ?_⟩
    unfold QuizService.getQuizById QuizService.findQuiz
    dsimp only
    rw [find?_filter_not (fun q : Quiz => q.id == quizId) store.quizzes]
  · intro hres
    have hpair : QuizService.deleteQuiz store quizId
        = ({ store with quizzes := store.quizzes.map fun q =>
              if q.id == quizId then { q with isActive := false } else q },
           .ok ⟨200, (), "Quiz deactivated successfully (has existing results)"⟩) := by
      unfold QuizService.deleteQuiz
      rw [hfind]
      dsimp only
      rw [hres]
      simp
    rw [hpair]
    refine ⟨rfl, ⟨{ quiz with isActive := false }, ?_, rfl⟩⟩
    unfold QuizService.getQuizById QuizService.findQuiz
    dsimp only
    rw [find?_map_update (fun q : Quiz => q.id == quizId)
          (fun q => { q with isActive := false }) hg store.quizzes quiz hfind]

/-- C4 (witness): hard-delete branch on a store with no results. -/
theorem deleteQuiz_lifecycle_witness :
    QuizService.findQuiz fixStoreNoResults 1 = some fixQuiz
    ∧ (fixStoreNoResults.results.any fun r => r.quizId == 1) = false
    ∧ (QuizService.deleteQuiz fixStoreNoResults 1).2
        = .ok ⟨200, (), "Quiz deleted successfully"⟩
    ∧ QuizService.getQuizById (QuizService.deleteQuiz fixStoreNoResults 1).1 1
        = .error ⟨404, "Quiz not found"⟩ :=
  ⟨by decide, by decide,
   ((deleteQuiz_lifecycle fixStoreNoResults 1 fixQuiz (by decide)).1 (by decide)).1,
   ((deleteQuiz_lifecycle fixStoreNoResults 1 fixQuiz (by decide)).1 (by decide)).2⟩

/-! ## C7: retake eligibility and nextRetakeTime -/

/-- C7: when the retake policy is exhausted and an attempt exists, the
response has `canTake = false` and exposes the last attempt's timestamp
plus cooldown only when strictly in the future, otherwise `none`. -/
theorem canUserTakeQuiz_nextRetakeTime_future_only
    (store : QuizStore) (quizId userId : Nat) (now : Int) (quiz : Quiz)
    (hfind : QuizService.findQuiz store quizId = some quiz)
    (hexhausted : QuizService.canUserRetake quiz
        (QuizService.userQuizResults store quizId userId).length = false)
    (lastAttempt : QuizResult)
    (hlast : QuizService.latestAttempt (QuizService.userQuizResults store quizId userId)
        = some lastAttempt) :
    QuizService.canUserTakeQuiz store quizId userId now
      = .ok ⟨200,
          { canTake := false, reason := some "Maximum attempts reached",
            attemptsUsed := (QuizService.userQuizResults store quizId userId).length,
            maxAttempts := quiz.retakePolicy.maxAttempts,
            nextRetakeTime :=
              if now < QuizService.getNextRetakeTime quiz lastAttempt.createdAt
              then some (QuizService.getNextRetakeTime quiz lastAttempt.createdAt)
              else none },
          "Success"⟩ := by
  unfold QuizService.canUserTakeQuiz
  rw [hfind]
  dsimp only
  rw [hexhausted, hlast]
  simp

/-- C7 (witness): user 2 has used the single allowed attempt on quiz 1. -/
theorem canUserTakeQuiz_witness :
    QuizService.findQuiz retakeStore 1 = some retakeQuiz
    ∧ QuizService.canUserRetake retakeQuiz
        (QuizService.userQuizResults retakeStore 1 2).length = false
    ∧ QuizService.latestAttempt (QuizService.userQuizResults retakeStore 1 2)
        = some attemptResult
    ∧ QuizService.canUserTakeQuiz retakeStore 1 2 0
      = .ok ⟨200,
          { canTake := false, reason := some "Maximum attempts reached",
            attemptsUsed := (QuizService.userQuizResults retakeStore 1 2).length,
            maxAttempts := retakeQuiz.retakePolicy.maxAttempts,
            nextRetakeTime :=
              if (0 : Int) < QuizService.getNextRetakeTime retakeQuiz attemptResult.createdAt
              then some (QuizService.getNextRetakeTime retakeQuiz attemptResult.createdAt)
              else none },
          "Success"⟩ :=
  ⟨by decide, by decide, by decide,
   canUserTakeQuiz_nextRetakeTime_future_only retakeStore 1 2 0 retakeQuiz
     (by decide) (by decide) attemptResult (by decide)⟩

/-! ## C9: listed subjects are always active -/

/-- Membership in a `getSubjects` page implies membership in the store and
satisfaction of the built filter. -/
theorem mem_getSubjects_subjects
    (store : List Subject) (query : SubjectQuery) (s : Subject)
    (h : s ∈ (SubjectService.getSubjects store query).subjects) :
    s ∈ store ∧ SubjectService.subjectMatches query s = true := by
  unfold SubjectService.getSubjects at h
  dsimp only at h
  have h1 := List.mem_of_mem_drop (List.mem_of_mem_take h)
  rw [mem_sortWith] at h1
  exact ⟨(List.mem_filter.mp h1).1, (List.mem_filter.mp h1).2⟩

/-- C9: every subject a list call returns has status `"active"`, and after
`deleteSubject` (which stores status `"inactive"`) the deleted id never
appears in any list result. -/
theorem getSubjects_returns_only_active
    (store : List Subject) (query q2 : SubjectQuery) (subjectId : Nat) :
    (∀ s ∈ (SubjectService.getSubjects store query).subjects, s.status = "active")
    ∧ (∀ s ∈ (SubjectService.getSubjects
          (SubjectService.deleteSubject store subjectId).1 q2).subjects,
        s.id ≠ subjectId) := by
  have hactive : ∀ (st : List Subject) (q : SubjectQuery) (s : Subject),
      s ∈ (SubjectService.getSubjects st q).subjects → s.status = "active" := by
    intro st q s hs
    have h := (mem_getSubjects_subjects st q s hs).2
    unfold SubjectService.subjectMatches at h
    simp only [Bool.and_eq_true, beq_iff_eq] at h
    exact h.1.1.1.1.1.1.1.1.1
  refine ⟨fun s hs => hactive store query s hs, ?_⟩
  intro s hs heq
  have hst := hactive _ q2 s hs
  have hmem := (mem_getSubjects_subjects _ q2 s hs).1
  unfold SubjectService.deleteSubject at hmem
  by_cases hex : (store.any fun x => x.id == subjectId) = true
  · rw [if_pos hex] at hmem
    dsimp only at hmem
    rw [List.mem_map] at hmem
    obtain ⟨x, hx, hfx⟩ := hmem
    by_cases hxid : (x.id == subjectId) = true
    · rw [if_pos hxid] at hfx
      subst hfx
      simp at hst
    · rw [if_neg hxid] at hfx
      subst hfx
      simp only [beq_iff_eq] at hxid
      exact hxid heq
  · rw [if_neg hex] at hmem
    dsimp only at hmem
    rw [List.any_eq_true] at hex
    exact hex ⟨s, hmem, by simp [heq]⟩

/-- C9 (witness): the singleton active store is listed and active. -/
theorem getSubjects_only_active_witness :
    fixSubject ∈ (SubjectService.getSubjects fixSubjects emptyQuery).subjects
    ∧ fixSubject.status = "active" :=
  ⟨by decide,
   (getSubjects_returns_only_active fixSubjects emptyQuery emptyQuery 99).1
     fixSubject (by decide)⟩

/-! ## C2: pagination contract of the list calls -/

/-- C2: for both list calls, `totalPages` is the ceiling of total over
limit, at most `limit` items are returned, `hasNextPage`/`hasNext` holds
iff `page < totalPages`, and `hasPrevPage`/`hasPrev` holds iff `page > 1`. -/
theorem list_pagination_contract
    (store : List Subject) (query : SubjectQuery)
    (qstore : QuizStore) (extraFilter : Quiz → Bool) (options : QuizListOptions)
    (hsl : 0 < query.limit.getD 10) (hql : 0 < options.limit.getD 10) :
    ((SubjectService.getSubjects store query).pagination.totalPages
        = ⌈((SubjectService.getSubjects store query).pagination.totalCount : ℚ)
            / (query.limit.getD 10 : ℚ)⌉₊
      ∧ (SubjectService.getSubjects store query).subjects.length ≤ query.limit.getD 10
      ∧ ((SubjectService.getSubjects store query).pagination.hasNextPage = true
          ↔ query.page.getD 1
              < (SubjectService.getSubjects store query).pagination.totalPages)
      ∧ ((SubjectService.getSubjects store query).pagination.hasPrevPage = true
          ↔ 1 < query.page.getD 1))
    ∧ ((QuizService.getAllQuizzes qstore extraFilter options).data.pagination.totalPages
        = ⌈((QuizService.getAllQuizzes qstore extraFilter options).data.pagination.totalItems : ℚ)
            / (options.limit.getD 10 : ℚ)⌉₊
      ∧ (QuizService.getAllQuizzes qstore extraFilter options).data.quizzes.length
          ≤ options.limit.getD 10
      ∧ ((QuizService.getAllQuizzes qstore extraFilter options).data.pagination.hasNext = true
          ↔ options.page.getD 1
              < (QuizService.getAllQuizzes qstore extraFilter options).data.pagination.totalPages)
      ∧ ((QuizService.getAllQuizzes qstore extraFilter options).data.pagination.hasPrev = true
          ↔ 1 < options.page.getD 1)) := by
  constructor
  · unfold SubjectService.getSubjects
    dsimp only
    refine ⟨jsCeilDiv_eq_ceil _ _ hsl, List.length_take_le _ _, ?_, ?_⟩
    · exact ⟨of_decide_eq_true, decide_eq_true⟩
    · exact ⟨of_decide_eq_true, decide_eq_true⟩
  · unfold QuizService.getAllQuizzes
    dsimp only
    refine ⟨jsCeilDiv_eq_ceil _ _ hql, List.length_take_le _ _, ?_, ?_⟩
    · exact ⟨of_decide_eq_true, decide_eq_true⟩
    · exact ⟨of_decide_eq_true, decide_eq_true⟩

/-- C2 (witness): concrete run over the default page and limit. -/
theorem list_pagination_contract_witness :
    0 < emptyQuery.limit.getD 10
    ∧ 0 < emptyQuizOptions.limit.getD 10
    ∧ (((SubjectService.getSubjects fixSubjects emptyQuery).pagination.totalPages
        = ⌈((SubjectService.getSubjects fixSubjects emptyQuery).pagination.totalCount : ℚ)
            / (emptyQuery.limit.getD 10 : ℚ)⌉₊
      ∧ (SubjectService.getSubjects fixSubjects emptyQuery).subjects.length
          ≤ emptyQuery.limit.getD 10
      ∧ ((SubjectService.getSubjects fixSubjects emptyQuery).pagination.hasNextPage = true
          ↔ emptyQuery.page.getD 1
              < (SubjectService.getSubjects fixSubjects emptyQuery).pagination.totalPages)
      ∧ ((SubjectService.getSubjects fixSubjects emptyQuery).pagination.hasPrevPage = true
          ↔ 1 < emptyQuery.page.getD 1))
    ∧ ((QuizService.getAllQuizzes fixStoreNoResults noExtraFilter emptyQuizOptions).data.pagination.totalPages
        = ⌈((QuizService.getAllQuizzes fixStoreNoResults noExtraFilter emptyQuizOptions).data.pagination.totalItems : ℚ)
            / (emptyQuizOptions.limit.getD 10 : ℚ)⌉₊
      ∧ (QuizService.getAllQuizzes fixStoreNoResults noExtraFilter emptyQuizOptions).data.quizzes.length
          ≤ emptyQuizOptions.limit.getD 10
      ∧ ((QuizService.getAllQuizzes fixStoreNoResults noExtraFilter emptyQuizOptions).data.pagination.hasNext = true
          ↔ emptyQuizOptions.page.getD 1
              < (QuizService.getAllQuizzes fixStoreNoResults noExtraFilter emptyQuizOptions).data.pagination.totalPages)
      ∧ ((QuizService.getAllQuizzes fixStoreNoResults noExtraFilter emptyQuizOptions).data.pagination.hasPrev = true
          ↔ 1 < emptyQuizOptions.page.getD 1))) :=
  ⟨by decide, by decide,
   list_pagination_contract fixSubjects emptyQuery fixStoreNoResults
     noExtraFilter emptyQuizOptions (by decide) (by decide)⟩

/-! ## C5: score distribution bucket boundaries -/

/-- Characterization of `jsRound` used to evaluate rounded means. -/
theorem jsRound_eq (q : ℚ) (z : Int) (h1 : (z : ℚ) ≤ q + 1/2) (h2 : q + 1/2 < z + 1) :
    jsRound q = z := by
  unfold jsRound
  rw [Int.floor_eq_iff]
  exact ⟨h1, h2⟩

/-- C5: every bucket of the distribution counts results with
`lo < score ≤ hi` over the 20% segments, and a score exactly on the first
boundary (`totalPoints * 1/5`) lands in the lower bucket, not the upper. -/
theorem scoreDistribution_boundary_lower_bucket
    (totalPoints : ℚ) (hT : 0 < totalPoints)
    (results : List QuizResult)
    (rid qid uid : Nat) (t : ℚ) (c : Int) :
    (QuizService.calculateScoreDistribution results totalPoints).map ScoreBucket.count
      = [ (results.filter fun r =>
            decide ((0 : ℚ) < r.score) && decide (r.score ≤ totalPoints * (1/5))).length,
          (results.filter fun r =>
            decide (totalPoints * (1/5) < r.score) && decide (r.score ≤ totalPoints * (2/5))).length,
          (results.filter fun r =>
            decide (totalPoints * (2/5) < r.score) && decide (r.score ≤ totalPoints * (3/5))).length,
          (results.filter fun r =>
            decide (totalPoints * (3/5) < r.score) && decide (r.score ≤ totalPoints * (4/5))).length,
          (results.filter fun r =>
            decide (totalPoints * (4/5) < r.score) && decide (r.score ≤ totalPoints)).length ]
    ∧ (QuizService.calculateScoreDistribution
        [⟨rid, qid, uid, totalPoints * (1/5), t, c⟩] totalPoints).map ScoreBucket.count
      = [1, 0, 0, 0, 0] := by
  constructor
  · rfl
  · have h0 : (0 : ℚ) < totalPoints * (1/5) := by positivity
    have h1 : ¬ (totalPoints * (1/5) < totalPoints * (1/5)) := lt_irrefl _
    have h2 : ¬ (totalPoints * (2/5) < totalPoints * (1/5)) := not_lt.mpr (by nlinarith)
    have h3 : ¬ (totalPoints * (3/5) < totalPoints * (1/5)) := not_lt.mpr (by nlinarith)
    have h4 : ¬ (totalPoints * (4/5) < totalPoints * (1/5)) := not_lt.mpr (by nlinarith)
    simp only [QuizService.calculateScoreDistribution, QuizService.scoreRanges,
      List.map_cons, List.map_nil, List.filter_cons, List.filter_nil,
      decide_eq_true h0, decide_eq_true (le_refl (totalPoints * (1/5))),
      decide_eq_false h1, decide_eq_false h2, decide_eq_false h3, decide_eq_false h4,
      Bool.true_and, Bool.false_and, if_true, if_false]
    rfl

/-- C5 (witness): boundary behaviour at `totalPoints = 20`, score 4. -/
theorem scoreDistribution_boundary_witness :
    (0 : ℚ) < 20
    ∧ ((QuizService.calculateScoreDistribution [] 20).map ScoreBucket.count
        = [ (([] : List QuizResult).filter fun r =>
              decide ((0 : ℚ) < r.score) && decide (r.score ≤ 20 * (1/5))).length,
            (([] : List QuizResult).filter fun r =>
              decide ((20 : ℚ) * (1/5) < r.score) && decide (r.score ≤ 20 * (2/5))).length,
            (([] : List QuizResult).filter fun r =>
              decide ((20 : ℚ) * (2/5) < r.score) && decide (r.score ≤ 20 * (3/5))).length,
            (([] : List QuizResult).filter fun r =>
              decide ((20 : ℚ) * (3/5) < r.score) && decide (r.score ≤ 20 * (4/5))).length,
            (([] : List QuizResult).filter fun r =>
              decide ((20 : ℚ) * (4/5) < r.score) && decide (r.score ≤ 20)).length ]
      ∧ (QuizService.calculateScoreDistribution
          [⟨1, 1, 1, 20 * (1/5), 0, 0⟩] 20).map ScoreBucket.count
        = [1, 0, 0, 0, 0]) :=
  ⟨by decide,
   scoreDistribution_boundary_lower_bucket 20 (by decide) [] 1 1 1 0 0⟩

/-! ## C6: analytics on scores 10, 15, 18, 20 of 20 -/

/-- C6: four results scoring 10, 15, 18 and 20 yield `totalAttempts = 4`,
rounded mean score 16, rounded mean of the times taken, and completion
rate 100 (every score is positive). -/
theorem quizAnalytics_scores_10_15_18_20
    (qid u1 u2 u3 u4 : Nat) (t1 t2 t3 t4 : ℚ) (c1 c2 c3 c4 : Int)
    (quizzes : List Quiz) :
    (QuizService.updateQuizAnalytics
        ⟨quizzes,
         [⟨1, qid, u1, 10, t1, c1⟩, ⟨2, qid, u2, 15, t2, c2⟩,
          ⟨3, qid, u3, 18, t3, c3⟩, ⟨4, qid, u4, 20, t4, c4⟩]⟩ qid).2
      = some ⟨200,
          { totalAttempts := 4, averageScore := 16,
            averageTime := jsRound ((t1 + t2 + t3 + t4) / 4),
            completionRate := 100 },
          "Quiz analytics updated successfully"⟩ := by
  have hres : QuizService.quizResultsFor
      (⟨quizzes,
        [⟨1, qid, u1, 10, t1, c1⟩, ⟨2, qid, u2, 15, t2, c2⟩,
         ⟨3, qid, u3, 18, t3, c3⟩, ⟨4, qid, u4, 20, t4, c4⟩]⟩ : QuizStore) qid
      = [⟨1, qid, u1, 10, t1, c1⟩, ⟨2, qid, u2, 15, t2, c2⟩,
         ⟨3, qid, u3, 18, t3, c3⟩, ⟨4, qid, u4, 20, t4, c4⟩] := by
    unfold QuizService.quizResultsFor
    simp
  unfold QuizService.updateQuizAnalytics
  rw [hres]
  dsimp only
  rw [if_neg (by simp)]
  dsimp only
  unfold QuizService.computeQuizAnalytics
  dsimp only [List.foldl, List.filter, List.length]
  rw [show (0 + 1 + 1 + 1 + 1 : Nat) = 4 from by norm_num]
  rw [show ((4 : Nat) : ℚ) = 4 from by norm_num]
  rw [show ((0 : ℚ) + 10 + 15 + 18 + 20) = 63 from by norm_num]
  rw [show ((0 : ℚ) + t1 + t2 + t3 + t4) = t1 + t2 + t3 + t4 from by ring]
  rw [show jsRound ((63 : ℚ) / 4) = 16 from jsRound_eq _ 16 (by norm_num) (by norm_num)]
  rw [show jsRound ((4 : ℚ) / 4 * 100) = 100 from jsRound_eq _ 100 (by norm_num) (by norm_num)]
